import Mathlib

/-!
Shallow embedding of the TensorRT-LLM example build scripts
(`examples/gptj/build.py`, `examples/gptneox/build.py`,
`cpp/tests/resources/scripts/build_gptj_engines.py`) and of the BLOOM
model-graph control flow (`tensorrt_llm/models/bloom/model.py`).

External library behaviour (HuggingFace checkpoint loading, `torch.load`,
the TensorRT builder, CUDA device counting, the layer primitives of the
graph builder) is abstracted into explicit environment records; the
control flow, assertion chain, file-naming and file-writing behaviour of
the repository's own Python code is translated directly.
-/

set_option autoImplicit false

namespace GptjBuild

/-- Weight-only precision, restricted by the argparse `choices=['int8','int4']`. -/
inductive WOPrec where
  | int8
  | int4
deriving DecidableEq, Repr

/-- The CLI arguments of `examples/gptj/build.py` after `argparse` parsing,
before the script-level post-processing.  String-valued plugin flags with
`nargs='?'` are `Option String` (`none` models the Python default `False`). -/
structure CliArgs where
  world_size : Nat
  model_dir : Option String
  dtype : String
  logits_dtype : String
  timing_cache : String
  vocab_size : Nat
  n_layer : Nat
  n_positions : Nat
  n_embd : Nat
  n_head : Nat
  hidden_act : String
  rotary_dim : Nat
  max_batch_size : Nat
  max_input_len : Nat
  max_output_len : Nat
  max_beam_width : Nat
  use_gpt_attention_plugin : Option String
  use_gemm_plugin : Option String
  use_weight_only_quant_matmul_plugin : Option String
  use_layernorm_plugin : Option String
  parallel_build : Bool
  enable_context_fmha : Bool
  enable_context_fmha_fp32_acc : Bool
  gpus_per_node : Nat
  output_dir : String
  remove_input_padding : Bool
  enable_fp8 : Bool
  quantized_fp8_model_path : Option String
  fp8_kv_cache : Bool
  use_inflight_batching : Bool
  enable_two_optimization_profiles : Bool
  paged_kv_cache : Bool
  tokens_per_block : Nat
  per_group : Bool
  use_weight_only : Bool
  weight_only_precision : WOPrec
deriving DecidableEq, Repr

/-- The model hyperparameters read out of a checkpoint configuration
(`config.json` of the AWQ checkpoint, or `hf_gpt.config` of the
HuggingFace model).  This abstracts the external checkpoint files. -/
structure HFConfig where
  n_embd : Nat
  n_head : Nat
  n_layer : Nat
  n_positions : Nat
  vocab_size : Nat
deriving DecidableEq, Repr

/-- Environment for `parse_arguments`: the checkpoint configurations that
the external loaders would return when `--model_dir` is given. -/
structure ParseEnv where
  awq_config : HFConfig
  hf_config : HFConfig
deriving DecidableEq, Repr

/-- The `--model_dir` branch of `parse_arguments` (build.py lines 197-224):
when a model directory is given, the five model hyperparameters are
overwritten from the checkpoint configuration.  On the AWQ path
(`use_weight_only` with precision `int4` and `per_group`) the vocabulary
size is additionally padded up to a multiple of 64; `int((v + 63) / 64) * 64`
in Python is floor division here, exact for all representable sizes. -/
def applyModelDir (cli : CliArgs) (env : ParseEnv) : CliArgs :=
  match cli.model_dir with
  | none => cli
  | some _ =>
    if cli.use_weight_only ∧ cli.weight_only_precision = WOPrec.int4 ∧ cli.per_group then
      let c := env.awq_config
      let vs := if c.vocab_size % 64 ≠ 0 then ((c.vocab_size + 63) / 64) * 64 else c.vocab_size
      { cli with n_embd := c.n_embd, n_head := c.n_head, n_layer := c.n_layer,
                 n_positions := c.n_positions, vocab_size := vs }
    else
      let c := env.hf_config
      { cli with n_embd := c.n_embd, n_head := c.n_head, n_layer := c.n_layer,
                 n_positions := c.n_positions, vocab_size := c.vocab_size }

/-- The assertion chain of `parse_arguments` (build.py lines 226-256), in
source order, applied to the argument record after the checkpoint
override.  A Python `AssertionError` with message `m` is modelled as
`.error m`.  The computation of `args.quant_mode` (a value of the
external `tensorrt_llm.quantization.QuantMode` library type) is not
modelled; no assertion depends on it. -/
def validate_flags (a : CliArgs) : Except String CliArgs :=
  if a.use_weight_only ∧ a.weight_only_precision = WOPrec.int8 then
    Except.error "Not support int8 weight only."
  else if a.use_weight_only ∧ a.weight_only_precision = WOPrec.int4 ∧ ¬a.per_group then
    Except.error "We only support AWQ for int4 weight only."
  else if a.fp8_kv_cache ∧ ¬a.use_gpt_attention_plugin.isSome then
    Except.error "You have to use GPT attention plugin or inflight batching plugin when fp8 KV cache is set"
  else if a.use_inflight_batching ∧ ¬a.use_gpt_attention_plugin.isSome then
    Except.error "You have to use GPT attention plugin for in-flight batching mode"
  else if a.use_inflight_batching ∧ ¬a.paged_kv_cache then
    Except.error "You have to use paged kv cache for in-flight batching mode"
  else if a.use_inflight_batching ∧ ¬a.remove_input_padding then
    Except.error "You have to remove input padding for in-flight batching"
  else if (a.remove_input_padding ∨ a.use_inflight_batching ∨ a.paged_kv_cache)
      ∧ a.enable_two_optimization_profiles then
    Except.error "Only 1 opt profile supported for inflight batching and paged kv cache."
  else
    Except.ok a

/-- `parse_arguments` of `examples/gptj/build.py` (lines 193-258): argparse
parsing is modelled by the `CliArgs` record itself; the script body is the
checkpoint override followed by the assertion chain. -/
def parse_arguments (cli : CliArgs) (env : ParseEnv) : Except String CliArgs :=
  validate_flags (applyModelDir cli env)

/-- Whether an `Except`-valued script step ended in a Python `AssertionError`. -/
def isAssertError {α : Type} : Except String α → Bool
  | Except.error _ => true
  | Except.ok _ => false

/-- The three assertion messages of the `use_inflight_batching` block
(build.py lines 248-251). -/
def inflightBatchingMsgs : List String :=
  ["You have to use GPT attention plugin for in-flight batching mode",
   "You have to use paged kv cache for in-flight batching mode",
   "You have to remove input padding for in-flight batching"]

theorem applyModelDir_flags (cli : CliArgs) (env : ParseEnv) :
    (applyModelDir cli env).use_weight_only = cli.use_weight_only ∧
    (applyModelDir cli env).weight_only_precision = cli.weight_only_precision ∧
    (applyModelDir cli env).per_group = cli.per_group ∧
    (applyModelDir cli env).fp8_kv_cache = cli.fp8_kv_cache ∧
    (applyModelDir cli env).use_gpt_attention_plugin = cli.use_gpt_attention_plugin ∧
    (applyModelDir cli env).use_inflight_batching = cli.use_inflight_batching ∧
    (applyModelDir cli env).paged_kv_cache = cli.paged_kv_cache ∧
    (applyModelDir cli env).remove_input_padding = cli.remove_input_padding ∧
    (applyModelDir cli env).enable_two_optimization_profiles = cli.enable_two_optimization_profiles := by
  unfold applyModelDir
  match cli.model_dir with
  | none => exact ⟨rfl, rfl, rfl, rfl, rfl, rfl, rfl, rfl, rfl⟩
  | some _ =>
    dsimp only
    split <;> exact ⟨rfl, rfl, rfl, rfl, rfl, rfl, rfl, rfl, rfl⟩

theorem parse_arguments_ok (cli : CliArgs) (env : ParseEnv) (a : CliArgs)
    (h : parse_arguments cli env = Except.ok a) : a = applyModelDir cli env := by
  simp only [parse_arguments, validate_flags] at h
  split_ifs at h
  exact (Except.ok.inj h).symm

/-- Argparse default values of every flag of `examples/gptj/build.py`. -/
def defaultCliArgs : CliArgs where
  world_size := 1
  model_dir := none
  dtype := "float16"
  logits_dtype := "float32"
  timing_cache := "model.cache"
  vocab_size := 50401
  n_layer := 28
  n_positions := 2048
  n_embd := 4096
  n_head := 16
  hidden_act := "gelu"
  rotary_dim := 64
  max_batch_size := 256
  max_input_len := 200
  max_output_len := 200
  max_beam_width := 1
  use_gpt_attention_plugin := none
  use_gemm_plugin := none
  use_weight_only_quant_matmul_plugin := none
  use_layernorm_plugin := none
  parallel_build := false
  enable_context_fmha := false
  enable_context_fmha_fp32_acc := false
  gpus_per_node := 8
  output_dir := "gpt_outputs"
  remove_input_padding := false
  enable_fp8 := false
  quantized_fp8_model_path := none
  fp8_kv_cache := false
  use_inflight_batching := false
  enable_two_optimization_profiles := false
  paged_kv_cache := false
  tokens_per_block := 64
  per_group := false
  use_weight_only := false
  weight_only_precision := WOPrec.int8

/-- A sample checkpoint environment (the GPT-J 6B configuration). -/
def sampleEnv : ParseEnv where
  awq_config := { n_embd := 4096, n_head := 16, n_layer := 28, n_positions := 2048, vocab_size := 50400 }
  hf_config := { n_embd := 4096, n_head := 16, n_layer := 28, n_positions := 2048, vocab_size := 50400 }

/-- Claim C1: whenever `--use_inflight_batching` is set, `parse_arguments`
raises an `AssertionError` unless `--use_gpt_attention_plugin`,
`--paged_kv_cache` and `--remove_input_padding` are all also set; when all
three are set, none of the three inflight-batching assertions fires. -/
theorem claim_C1 (cli : CliArgs) (env : ParseEnv)
    (h : cli.use_inflight_batching = true) :
    (¬(cli.use_gpt_attention_plugin.isSome = true ∧ cli.paged_kv_cache = true ∧
        cli.remove_input_padding = true) →
      isAssertError (parse_arguments cli env) = true)
    ∧ (cli.use_gpt_attention_plugin.isSome = true ∧ cli.paged_kv_cache = true ∧
        cli.remove_input_padding = true →
      ∀ m ∈ inflightBatchingMsgs, parse_arguments cli env ≠ Except.error m) := by
  obtain ⟨f1, f2, f3, f4, f5, f6, f7, f8, f9⟩ := applyModelDir_flags cli env
  constructor
  · intro hmiss
    unfold parse_arguments validate_flags
    split_ifs <;> simp_all [isAssertError]
  · intro hall m hm
    unfold parse_arguments validate_flags
    fin_cases hm <;> (split_ifs <;> simp_all)

/-- Claim C1 witness: a vector missing `--paged_kv_cache` trips an
assertion; a vector with all three companion flags trips none of the
inflight-batching assertions. -/
theorem claim_C1_witness :
    isAssertError (parse_arguments
      { defaultCliArgs with
        use_inflight_batching := true,
        use_gpt_attention_plugin := some "float16" } sampleEnv) = true ∧
    (∀ m ∈ inflightBatchingMsgs, parse_arguments
      { defaultCliArgs with
        use_inflight_batching := true,
        use_gpt_attention_plugin := some "float16",
        paged_kv_cache := true,
        remove_input_padding := true } sampleEnv ≠ Except.error m) :=
  ⟨(claim_C1 _ sampleEnv rfl).1 (by decide),
   (claim_C1 _ sampleEnv rfl).2 (by decide)⟩

/-- Claim C7: whenever `--use_weight_only` is set, `parse_arguments` raises
an `AssertionError` (one of the two weight-only assertions) unless the
precision is `int4` and `--per_group` is set; with the default precision
`int8` the first weight-only assertion always fires. -/
theorem claim_C7 (cli : CliArgs) (env : ParseEnv)
    (h : cli.use_weight_only = true) :
    (¬(cli.weight_only_precision = WOPrec.int4 ∧ cli.per_group = true) →
      ∃ m, parse_arguments cli env = Except.error m ∧
        (m = "Not support int8 weight only." ∨
         m = "We only support AWQ for int4 weight only."))
    ∧ (cli.weight_only_precision = WOPrec.int8 →
      parse_arguments cli env = Except.error "Not support int8 weight only.") := by
  obtain ⟨f1, f2, f3, f4, f5, f6, f7, f8, f9⟩ := applyModelDir_flags cli env
  have hint8 : cli.weight_only_precision = WOPrec.int8 →
      parse_arguments cli env = Except.error "Not support int8 weight only." := by
    intro hp
    unfold parse_arguments validate_flags
    rw [if_pos]
    exact ⟨f1.trans h, f2.trans hp⟩
  refine ⟨fun hnot => ?_, hint8⟩
  cases hp : cli.weight_only_precision with
  | int8 => exact ⟨_, hint8 hp, Or.inl rfl⟩
  | int4 =>
    have hg : cli.per_group = false := by
      cases hgc : cli.per_group with
      | false => rfl
      | true => exact absurd ⟨hp, hgc⟩ hnot
    refine ⟨_, ?_, Or.inr rfl⟩
    unfold parse_arguments validate_flags
    rw [if_neg, if_pos]
    · exact ⟨f1.trans h, f2.trans hp, by simp [f3, hg]⟩
    · simp [f1, f2, h, hp]

/-- Claim C7 witness: `--use_weight_only` alone (default precision `int8`)
raises the int8 assertion. -/
theorem claim_C7_witness :
    (∃ m, parse_arguments { defaultCliArgs with use_weight_only := true } sampleEnv
        = Except.error m ∧
      (m = "Not support int8 weight only." ∨
       m = "We only support AWQ for int4 weight only.")) ∧
    parse_arguments { defaultCliArgs with use_weight_only := true } sampleEnv
      = Except.error "Not support int8 weight only." :=
  ⟨(claim_C7 _ sampleEnv rfl).1 (by decide), (claim_C7 _ sampleEnv rfl).2 rfl⟩

/-- Claim C9: on the AWQ loading path (`--model_dir` with
`--use_weight_only`, precision `int4`, `--per_group`), the parsed
`vocab_size` is the least multiple of 64 that is at least the checkpoint
configuration's `vocab_size`, and it is the checkpoint value itself when
that value is already a multiple of 64. -/
theorem claim_C9 (cli : CliArgs) (env : ParseEnv) (a : CliArgs)
    (hok : parse_arguments cli env = Except.ok a)
    (hd : cli.model_dir.isSome = true)
    (hw : cli.use_weight_only = true)
    (hp : cli.weight_only_precision = WOPrec.int4)
    (hg : cli.per_group = true) :
    a.vocab_size % 64 = 0 ∧
    env.awq_config.vocab_size ≤ a.vocab_size ∧
    (∀ m, m % 64 = 0 → env.awq_config.vocab_size ≤ m → a.vocab_size ≤ m) ∧
    (env.awq_config.vocab_size % 64 = 0 → a.vocab_size = env.awq_config.vocab_size) := by
  have ha := parse_arguments_ok cli env a hok
  obtain ⟨d, hdd⟩ := Option.isSome_iff_exists.mp hd
  have hv : a.vocab_size =
      (if env.awq_config.vocab_size % 64 ≠ 0
        then ((env.awq_config.vocab_size + 63) / 64) * 64
        else env.awq_config.vocab_size) := by
    rw [ha]
    unfold applyModelDir
    rw [hdd]
    dsimp only
    rw [if_pos ⟨hw, hp, hg⟩]
  rw [hv]
  by_cases h64 : env.awq_config.vocab_size % 64 = 0
  · rw [if_neg (by simp [h64])]
    refine ⟨h64, le_refl _, fun m _ hm => hm, fun _ => rfl⟩
  · rw [if_pos h64]
    refine ⟨?_, ?_, fun m hm hvm => ?_, fun hc => absurd hc h64⟩
    · omega
    · omega
    · omega

/-- CLI arguments selecting the AWQ loading path. -/
def awqCliArgs : CliArgs :=
  { defaultCliArgs with
    model_dir := some "m",
    use_weight_only := true,
    weight_only_precision := WOPrec.int4,
    per_group := true }

/-- A checkpoint environment whose AWQ configuration has a vocabulary size
(50257) that is not a multiple of 64. -/
def awqEnv : ParseEnv where
  awq_config := { n_embd := 4096, n_head := 16, n_layer := 28, n_positions := 2048, vocab_size := 50257 }
  hf_config := { n_embd := 4096, n_head := 16, n_layer := 28, n_positions := 2048, vocab_size := 50257 }

/-- The argument record produced by the AWQ path at `awqEnv`: the
vocabulary is padded from 50257 to 50304. -/
def awqParsedArgs : CliArgs :=
  { awqCliArgs with
    n_embd := 4096,
    n_head := 16,
    n_layer := 28,
    n_positions := 2048,
    vocab_size := 50304 }

/-- Claim C9 witness: the checkpoint vocabulary 50257 is padded to a
multiple of 64 no smaller than it. -/
theorem claim_C9_witness :
    awqParsedArgs.vocab_size % 64 = 0 ∧
    awqEnv.awq_config.vocab_size ≤ awqParsedArgs.vocab_size := by
  have h := claim_C9 awqCliArgs awqEnv awqParsedArgs (by rfl) (by rfl) (by rfl)
    (by rfl) (by rfl)
  exact ⟨h.1, h.2.1⟩

/-- The constant `MODEL_NAME = "gptj"` of `examples/gptj/build.py`. -/
def MODEL_NAME : String := "gptj"

/-- `get_engine_name` (build.py lines 41-42). -/
def get_engine_name (model dtype : String) (tp_size rank : Nat) : String :=
  model ++ "_" ++ dtype ++ "_tp" ++ toString tp_size ++ "_rank" ++ toString rank ++ ".engine"

/-- `os.path.join` for the directory/file pairs the script joins. -/
def pathJoin (dir file : String) : String := dir ++ "/" ++ file

/-- Where `create_builder_config` got its `timing_cache` argument:
either the `--timing_cache` path, or the in-memory cache object read back
from the builder configuration of the given (already built) rank. -/
inductive TimingCacheSource where
  | fromPath (p : String)
  | fromMemory (rank : Nat)
deriving DecidableEq, Repr

/-- The keyword arguments handed to `builder.create_builder_config` in
`build` (build.py lines 563-581).  `quant_mode` (external library value)
is not modelled. -/
structure BuilderCfg where
  name : String
  precision : String
  timing_cache : TimingCacheSource
  tensor_parallel : Nat
  parallel_build : Bool
  num_layers : Nat
  num_heads : Nat
  hidden_size : Nat
  vocab_size : Nat
  hidden_act : String
  max_position_embeddings : Nat
  max_batch_size : Nat
  max_input_len : Nat
  max_output_len : Nat
  fp8 : Bool
  paged_kv_cache : Bool
  tokens_per_block : Nat
deriving DecidableEq, Repr

/-- The `create_builder_config` call of `build`, as a function of the
parsed arguments and of the timing-cache argument
(`args.timing_cache if cache is None else cache`). -/
def mkBuilderConfig (args : CliArgs) (src : TimingCacheSource) : BuilderCfg where
  name := MODEL_NAME
  precision := args.dtype
  timing_cache := src
  tensor_parallel := args.world_size
  parallel_build := args.parallel_build
  num_layers := args.n_layer
  num_heads := args.n_head
  hidden_size := args.n_embd
  vocab_size := args.vocab_size
  hidden_act := args.hidden_act
  max_position_embeddings := args.n_positions
  max_batch_size := args.max_batch_size
  max_input_len := args.max_input_len
  max_output_len := args.max_output_len
  fp8 := args.enable_fp8
  paged_kv_cache := args.paged_kv_cache
  tokens_per_block := args.tokens_per_block

/-- A file written by the build.  Engine writes are tagged with the value
of `cur_rank` whose engine they serialize; the tag is ghost information
recording which loop iteration performed the write. -/
inductive FileWrite where
  | engineFile (rank : Nat) (path : String)
  | configFile (path : String)
  | cacheFile (path : String)
deriving DecidableEq, Repr

/-- Environment abstracting the external TensorRT builder:
whether `builder.build_engine` returns a non-`None` engine for a given
`cur_rank`, and whether `builder.save_timing_cache` succeeds. -/
structure BuildEnv where
  engine_ok : Nat → Bool
  save_cache_ok : Bool

/-- The timing-cache argument selected by
`args.timing_cache if cache is None else cache`; the in-memory `cache`
variable of `build` is modelled by the rank whose builder configuration
it was read back from. -/
def cacheSrc (args : CliArgs) : Option Nat → TimingCacheSource
  | none => TimingCacheSource.fromPath args.timing_cache
  | some r => TimingCacheSource.fromMemory r

/-- The absolute path the engine of `cur_rank` is serialized to. -/
def enginePath (args : CliArgs) (cur : Nat) : String :=
  pathJoin args.output_dir (get_engine_name MODEL_NAME args.dtype args.world_size cur)

/-- The `for cur_rank in range(args.world_size)` loop of `build`
(build.py lines 558-594), including the file behaviour of
`build_rank_engine` (the `config.json` write when `rank == 0`, line
542-544, and the `assert not (enable_context_fmha and
enable_context_fmha_fp32_acc)` of line 499).  Model-graph construction,
weight loading and plugin configuration have no persistent effect and are
not modelled. -/
def buildLoop (rank : Nat) (args : CliArgs) (env : BuildEnv) :
    List Nat → Option Nat → Except String (List (Nat × BuilderCfg) × List FileWrite)
  | [], _ => Except.ok ([], [])
  | cur :: rest, cache =>
    if args.parallel_build ∧ cur ≠ rank then
      buildLoop rank args env rest cache
    else if args.enable_context_fmha ∧ args.enable_context_fmha_fp32_acc then
      Except.error "assert not (enable_context_fmha and enable_context_fmha_fp32_acc)"
    else if env.engine_ok cur = false then
      Except.error ("Failed to build engine for rank " ++ toString cur)
    else
      match buildLoop rank args env rest
          (if cur = 0 ∧ ¬args.parallel_build then some 0 else cache) with
      | Except.error e => Except.error e
      | Except.ok (cfgs, ws) =>
        Except.ok ((cur, mkBuilderConfig args (cacheSrc args cache)) :: cfgs,
          (if cur = 0 then [FileWrite.configFile (pathJoin args.output_dir "config.json")]
           else []) ++ FileWrite.engineFile cur (enginePath args cur) :: ws)

/-- `build` (build.py lines 548-599): the rank loop followed, on rank 0,
by `builder.save_timing_cache(builder_config, output_dir/"model.cache")`
and the `assert ok` on its result. -/
def build (rank : Nat) (args : CliArgs) (env : BuildEnv) :
    Except String (List (Nat × BuilderCfg) × List FileWrite) :=
  match buildLoop rank args env (List.range args.world_size) none with
  | Except.error e => Except.error e
  | Except.ok (cfgs, ws) =>
    if rank = 0 then
      if env.save_cache_ok then
        Except.ok (cfgs, ws ++ [FileWrite.cacheFile (pathJoin args.output_dir "model.cache")])
      else
        Except.error "Failed to save timing cache."
    else
      Except.ok (cfgs, ws)

/-- The outcome of `run_build` (build.py lines 602-614): either
`mp.spawn(build, nprocs=world_size)` (one `build r args` per worker
process `r`), or a single serial `build(0, args)` after forcing
`parallel_build = False`. -/
inductive RunPlan where
  | parallelSpawn (workers : List (Except String (List (Nat × BuilderCfg) × List FileWrite)))
  | serialRun (result : Except String (List (Nat × BuilderCfg) × List FileWrite))

/-- `run_build` (build.py lines 602-614); `torch.cuda.device_count()` is
the `device_count` argument. -/
def run_build (cli : CliArgs) (penv : ParseEnv) (benv : BuildEnv) (device_count : Nat) :
    Except String RunPlan :=
  match parse_arguments cli penv with
  | Except.error e => Except.error e
  | Except.ok args =>
    if args.parallel_build ∧ 1 < args.world_size ∧ args.world_size ≤ device_count then
      Except.ok (RunPlan.parallelSpawn
        ((List.range args.world_size).map (fun r => build r args benv)))
    else
      Except.ok (RunPlan.serialRun (build 0 { args with parallel_build := false } benv))

/-- The writes performed while processing loop iteration `cur` in a
serial build: `config.json` (only at `cur = 0`) followed by the engine
serialization. -/
def rankSeg (args : CliArgs) (cur : Nat) : List FileWrite :=
  (if cur = 0 then [FileWrite.configFile (pathJoin args.output_dir "config.json")] else []) ++
  [FileWrite.engineFile cur (enginePath args cur)]

/-- Whether a write serializes the engine of rank `r`. -/
def isEngineForRank (r : Nat) : FileWrite → Bool
  | FileWrite.engineFile r2 _ => r2 = r
  | _ => false

/-- Whether a write is the `config.json` write. -/
def isConfigWrite : FileWrite → Bool
  | FileWrite.configFile _ => true
  | _ => false

/-- The engine-serialization writes of a trace, in order. -/
def engineWrites (ws : List FileWrite) : List FileWrite :=
  ws.filter (fun w => match w with | FileWrite.engineFile _ _ => true | _ => false)

/-- The builder configurations created by a serial build, one per rank in
order: rank 0 from the `--timing_cache` path, later ranks from the
in-memory cache read back from rank 0's configuration. -/
def serialCfgs (args : CliArgs) : List (Nat × BuilderCfg) :=
  (0, mkBuilderConfig args (TimingCacheSource.fromPath args.timing_cache)) ::
    (List.range (args.world_size - 1)).map
      (fun k => (k + 1, mkBuilderConfig args (TimingCacheSource.fromMemory 0)))

/-- The writes of the rank loop of a serial build. -/
def serialBodyWrites (args : CliArgs) : List FileWrite :=
  ((List.range args.world_size).map (rankSeg args)).flatten

/-- All writes of a serial (rank 0) build, final timing-cache save included. -/
def serialWrites (args : CliArgs) : List FileWrite :=
  serialBodyWrites args ++ [FileWrite.cacheFile (pathJoin args.output_dir "model.cache")]

theorem buildLoop_serial_nz (args : CliArgs) (env : BuildEnv)
    (hpar : args.parallel_build = false)
    (hfmha : ¬(args.enable_context_fmha = true ∧ args.enable_context_fmha_fp32_acc = true))
    (hok : ∀ r, env.engine_ok r = true) :
    ∀ (l : List Nat), (∀ x ∈ l, x ≠ 0) → ∀ (c : Option Nat),
      buildLoop 0 args env l c =
        Except.ok (l.map (fun cur => (cur, mkBuilderConfig args (cacheSrc args c))),
          l.map (fun cur => FileWrite.engineFile cur (enginePath args cur))) := by
  intro l
  induction l with
  | nil => intro _ c; rfl
  | cons cur rest ih =>
    intro hnz c
    have hcur : cur ≠ 0 := hnz cur (List.mem_cons_self cur rest)
    have hrest : ∀ x ∈ rest, x ≠ 0 := fun x hx => hnz x (List.mem_cons_of_mem cur hx)
    simp only [buildLoop]
    rw [if_neg (by simp [hpar]), if_neg hfmha, if_neg (by simp [hok cur]),
      if_neg (by simp [hcur]), ih hrest c]
    simp [hcur]

theorem rankSeg_flatten_nz (args : CliArgs) :
    ∀ (l : List Nat), (∀ x ∈ l, x ≠ 0) →
      (l.map (rankSeg args)).flatten =
        l.map (fun cur => FileWrite.engineFile cur (enginePath args cur)) := by
  intro l
  induction l with
  | nil => intro _; rfl
  | cons cur rest ih =>
    intro hnz
    have hcur : cur ≠ 0 := hnz cur (List.mem_cons_self cur rest)
    simp only [List.map_cons, List.flatten_cons, rankSeg, if_neg hcur]
    rw [ih (fun x hx => hnz x (List.mem_cons_of_mem cur hx))]
    simp

theorem buildLoop_serial (args : CliArgs) (env : BuildEnv)
    (hpar : args.parallel_build = false)
    (hfmha : ¬(args.enable_context_fmha = true ∧ args.enable_context_fmha_fp32_acc = true))
    (hok : ∀ r, env.engine_ok r = true)
    (hN : 0 < args.world_size) :
    buildLoop 0 args env (List.range args.world_size) none =
      Except.ok (serialCfgs args, serialBodyWrites args) := by
  obtain ⟨n, hn⟩ : ∃ n, args.world_size = n + 1 := ⟨args.world_size - 1, by omega⟩
  have hsucc : ∀ x ∈ (List.range n).map Nat.succ, x ≠ 0 := by
    intro x hx
    obtain ⟨y, _, hy⟩ := List.mem_map.mp hx
    omega
  unfold serialCfgs serialBodyWrites
  rw [hn, List.range_succ_eq_map]
  simp only [buildLoop]
  rw [if_neg (by simp [hpar]), if_neg hfmha, if_neg (by simp [hok 0]),
    if_pos (by simp [hpar]), buildLoop_serial_nz args env hpar hfmha hok _ hsucc (some 0)]
  simp only [List.map_cons, List.flatten_cons]
  rw [rankSeg_flatten_nz args _ hsucc]
  simp [rankSeg, cacheSrc, List.map_map, Nat.succ_eq_add_one, Function.comp]

theorem build_serial (args : CliArgs) (env : BuildEnv)
    (hpar : args.parallel_build = false)
    (hfmha : ¬(args.enable_context_fmha = true ∧ args.enable_context_fmha_fp32_acc = true))
    (hok : ∀ r, env.engine_ok r = true)
    (hN : 0 < args.world_size) :
    (env.save_cache_ok = true →
      build 0 args env = Except.ok (serialCfgs args, serialWrites args)) ∧
    (env.save_cache_ok = false →
      build 0 args env = Except.error "Failed to save timing cache.") := by
  unfold build serialWrites
  rw [buildLoop_serial args env hpar hfmha hok hN]
  refine ⟨fun hs => ?_, fun hs => ?_⟩ <;> simp [hs]

theorem countP_rankSeg_engine (args : CliArgs) (r cur : Nat) :
    (rankSeg args cur).countP (isEngineForRank r) = if cur = r then 1 else 0 := by
  unfold rankSeg
  rw [List.countP_append]
  by_cases h0 : cur = 0 <;> by_cases hr : cur = r <;>
    simp [h0, hr, isEngineForRank, List.countP_cons]

theorem countP_rankSeg_config (args : CliArgs) (cur : Nat) :
    (rankSeg args cur).countP isConfigWrite = if cur = 0 then 1 else 0 := by
  unfold rankSeg
  rw [List.countP_append]
  by_cases h0 : cur = 0 <;> simp [h0, isConfigWrite, List.countP_cons]

theorem countP_flatten_rankSeg_engine (args : CliArgs) (r : Nat) :
    ∀ (l : List Nat),
      ((l.map (rankSeg args)).flatten).countP (isEngineForRank r) = l.count r := by
  intro l
  induction l with
  | nil => rfl
  | cons cur rest ih =>
    simp only [List.map_cons, List.flatten_cons, List.countP_append, ih,
      countP_rankSeg_engine, List.count_cons]
    by_cases h : cur = r <;> simp [h] <;> omega

theorem countP_flatten_rankSeg_config (args : CliArgs) :
    ∀ (l : List Nat),
      ((l.map (rankSeg args)).flatten).countP isConfigWrite = l.count 0 := by
  intro l
  induction l with
  | nil => rfl
  | cons cur rest ih =>
    simp only [List.map_cons, List.flatten_cons, List.countP_append, ih,
      countP_rankSeg_config, List.count_cons]
    by_cases h : cur = 0 <;> simp [h] <;> omega

theorem count_range_eq_one (r N : Nat) (h : r < N) : (List.range N).count r = 1 := by
  induction N with
  | zero => omega
  | succ n ih =>
    rw [List.range_succ, List.count_append]
    by_cases hr : r < n
    · have hne : r ≠ n := by omega
      rw [ih hr, List.count_eq_zero_of_not_mem (by simp [hne])]
    · have heq : r = n := by omega
      subst heq
      rw [List.count_eq_zero_of_not_mem (by simp)]
      simp

theorem engine_mem_rankSeg (args : CliArgs) (r cur : Nat) (p : String)
    (h : FileWrite.engineFile r p ∈ rankSeg args cur) : p = enginePath args r := by
  unfold rankSeg at h
  rcases List.mem_append.mp h with h1 | h1
  · by_cases h0 : cur = 0 <;> simp [h0] at h1
  · have h3 := List.mem_singleton.mp h1
    obtain ⟨hrc, hp⟩ := (FileWrite.engineFile.injEq _ _ _ _).mp h3
    subst hrc
    exact hp

theorem engine_mem_flatten (args : CliArgs) (r : Nat) (p : String) :
    ∀ (l : List Nat),
      FileWrite.engineFile r p ∈ (l.map (rankSeg args)).flatten → p = enginePath args r := by
  intro l
  induction l with
  | nil => intro h; simp at h
  | cons cur rest ih =>
    intro h
    simp only [List.map_cons, List.flatten_cons] at h
    rcases List.mem_append.mp h with h1 | h1
    · exact engine_mem_rankSeg args r cur p h1
    · exact ih h1

/-- Claim C4: a serial build with `world_size = N` writes exactly one
engine file per rank `r < N`, each at
`output_dir/{model}_{dtype}_tp{N}_rank{r}.engine`, and exactly one
`config.json`, written only during the rank-0 iteration of the loop
(together with the final timing-cache file). -/
theorem claim_C4 (args : CliArgs) (env : BuildEnv)
    (hser : args.parallel_build = false)
    (hN : 0 < args.world_size)
    (hfmha : ¬(args.enable_context_fmha = true ∧ args.enable_context_fmha_fp32_acc = true))
    (hok : ∀ r, env.engine_ok r = true)
    (hsave : env.save_cache_ok = true) :
    ∃ cfgs writes, build 0 args env = Except.ok (cfgs, writes) ∧
      writes = ((List.range args.world_size).map (rankSeg args)).flatten ++
        [FileWrite.cacheFile (pathJoin args.output_dir "model.cache")] ∧
      (∀ r, r < args.world_size → writes.countP (isEngineForRank r) = 1) ∧
      (∀ r p, FileWrite.engineFile r p ∈ writes →
        p = pathJoin args.output_dir
          (get_engine_name MODEL_NAME args.dtype args.world_size r)) ∧
      writes.countP isConfigWrite = 1 ∧
      (∀ cur, (rankSeg args cur).countP isConfigWrite = if cur = 0 then 1 else 0) := by
  refine ⟨serialCfgs args, serialWrites args,
    (build_serial args env hser hfmha hok hN).1 hsave, rfl, ?_, ?_, ?_,
    countP_rankSeg_config args⟩
  · intro r hr
    unfold serialWrites serialBodyWrites
    rw [List.countP_append, countP_flatten_rankSeg_engine, count_range_eq_one r _ hr]
    simp [isEngineForRank]
  · intro r p hp
    unfold serialWrites serialBodyWrites at hp
    rcases List.mem_append.mp hp with h1 | h1
    · exact engine_mem_flatten args r p _ h1
    · simp at h1
  · unfold serialWrites serialBodyWrites
    rw [List.countP_append, countP_flatten_rankSeg_config, count_range_eq_one 0 _ hN]
    simp [isConfigWrite]

/-- An all-succeeding builder environment. -/
def benvAllOk : BuildEnv where
  engine_ok := fun _ => true
  save_cache_ok := true

/-- Claim C4 witness: a serial two-rank build at the default arguments. -/
theorem claim_C4_witness :
    ∃ cfgs writes,
      build 0 { defaultCliArgs with world_size := 2 } benvAllOk = Except.ok (cfgs, writes) ∧
      writes = ((List.range 2).map (rankSeg { defaultCliArgs with world_size := 2 })).flatten ++
        [FileWrite.cacheFile (pathJoin "gpt_outputs" "model.cache")] ∧
      (∀ r, r < 2 → writes.countP (isEngineForRank r) = 1) ∧
      (∀ r p, FileWrite.engineFile r p ∈ writes →
        p = pathJoin "gpt_outputs" (get_engine_name MODEL_NAME "float16" 2 r)) ∧
      writes.countP isConfigWrite = 1 ∧
      (∀ cur, (rankSeg { defaultCliArgs with world_size := 2 } cur).countP isConfigWrite =
        if cur = 0 then 1 else 0) :=
  claim_C4 { defaultCliArgs with world_size := 2 } benvAllOk rfl (by decide)
    (by simp [defaultCliArgs]) (fun _ => rfl) rfl

/-- Claim C5: in a serial multi-rank build, rank 0's builder configuration
takes its timing cache from the `--timing_cache` path and every rank
`r ≥ 1` takes the in-memory cache read back from rank 0's configuration;
afterwards rank 0 saves the cache to `output_dir/model.cache` (the last
write of the build) and the build raises an `AssertionError` if the save
fails. -/
theorem claim_C5 (args : CliArgs) (env : BuildEnv)
    (hser : args.parallel_build = false)
    (hN : 0 < args.world_size)
    (hfmha : ¬(args.enable_context_fmha = true ∧ args.enable_context_fmha_fp32_acc = true))
    (hok : ∀ r, env.engine_ok r = true) :
    (env.save_cache_ok = true →
      build 0 args env = Except.ok (serialCfgs args, serialWrites args) ∧
      (∀ pr ∈ serialCfgs args, pr.1 = 0 →
        pr.2.timing_cache = TimingCacheSource.fromPath args.timing_cache) ∧
      (∀ pr ∈ serialCfgs args, 1 ≤ pr.1 →
        pr.2.timing_cache = TimingCacheSource.fromMemory 0) ∧
      (serialWrites args).getLast? =
        some (FileWrite.cacheFile (pathJoin args.output_dir "model.cache")))
    ∧ (env.save_cache_ok = false →
      build 0 args env = Except.error "Failed to save timing cache.") := by
  have hb := build_serial args env hser hfmha hok hN
  refine ⟨fun hs => ⟨hb.1 hs, ?_, ?_, ?_⟩, hb.2⟩
  · intro pr hpr h0
    rcases List.mem_cons.mp hpr with h | h
    · subst h; rfl
    · obtain ⟨k, _, hk⟩ := List.mem_map.mp h
      rw [← hk] at h0
      simp at h0
  · intro pr hpr h1
    rcases List.mem_cons.mp hpr with h | h
    · subst h; omega
    · obtain ⟨k, _, hk⟩ := List.mem_map.mp h
      rw [← hk]
      rfl
  · unfold serialWrites
    rw [List.getLast?_append]
    rfl

/-- Claim C5 witness: a serial two-rank build at the default arguments,
with both a succeeding and a failing timing-cache save. -/
theorem claim_C5_witness :
    (build 0 { defaultCliArgs with world_size := 2 } benvAllOk =
      Except.ok (serialCfgs { defaultCliArgs with world_size := 2 },
        serialWrites { defaultCliArgs with world_size := 2 }) ∧
      (∀ pr ∈ serialCfgs { defaultCliArgs with world_size := 2 }, pr.1 = 0 →
        pr.2.timing_cache = TimingCacheSource.fromPath "model.cache") ∧
      (∀ pr ∈ serialCfgs { defaultCliArgs with world_size := 2 }, 1 ≤ pr.1 →
        pr.2.timing_cache = TimingCacheSource.fromMemory 0) ∧
      (serialWrites { defaultCliArgs with world_size := 2 }).getLast? =
        some (FileWrite.cacheFile (pathJoin "gpt_outputs" "model.cache"))) ∧
    build 0 { defaultCliArgs with world_size := 2 }
      { engine_ok := fun _ => true, save_cache_ok := false } =
      Except.error "Failed to save timing cache." :=
  ⟨(claim_C5 { defaultCliArgs with world_size := 2 } benvAllOk rfl (by decide)
      (by simp [defaultCliArgs]) (fun _ => rfl)).1 rfl,
   (claim_C5 { defaultCliArgs with world_size := 2 }
      { engine_ok := fun _ => true, save_cache_ok := false } rfl (by decide)
      (by simp [defaultCliArgs]) (fun _ => rfl)).2 rfl⟩

theorem buildLoop_parallel (r : Nat) (args : CliArgs) (env : BuildEnv)
    (hpar : args.parallel_build = true)
    (hfmha : ¬(args.enable_context_fmha = true ∧ args.enable_context_fmha_fp32_acc = true))
    (hokr : env.engine_ok r = true) :
    ∀ (l : List Nat) (c : Option Nat),
      buildLoop r args env l c =
        Except.ok ((l.filter (fun x => x = r)).map
            (fun cur => (cur, mkBuilderConfig args (cacheSrc args c))),
          ((l.filter (fun x => x = r)).map (rankSeg args)).flatten) := by
  intro l
  induction l with
  | nil => intro c; rfl
  | cons cur rest ih =>
    intro c
    by_cases hc : cur = r
    · subst hc
      simp only [buildLoop]
      rw [if_neg (by simp), if_neg hfmha, if_neg (by simp [hokr]),
        if_neg (by simp [hpar]), ih c]
      simp [rankSeg]
    · simp only [buildLoop]
      rw [if_pos ⟨hpar, hc⟩, ih c]
      simp [hc]

theorem filter_range_eq (r N : Nat) (h : r < N) :
    (List.range N).filter (fun x => x = r) = [r] := by
  induction N with
  | zero => omega
  | succ n ih =>
    rw [List.range_succ, List.filter_append]
    by_cases hr : r < n
    · have hne : ¬(n = r) := by omega
      rw [ih hr]
      simp [hne]
    · have heq : r = n := by omega
      subst heq
      have hnot : ∀ x ∈ List.range r, ¬(x = r) := by
        intro x hx
        have := List.mem_range.mp hx
        omega
      rw [List.filter_eq_nil_iff.mpr (by intro x hx; simpa using hnot x hx)]
      simp

/-- Claim C6: with `parallel_build`, `world_size > 1` and at least
`world_size` CUDA devices, `run_build` spawns `world_size` workers and
worker `r` creates exactly one builder configuration and serializes
exactly the engine of `cur_rank = r`; otherwise `parallel_build` is
forced to `False` and a single `build(0, args)` builds every rank's
engine. -/
theorem claim_C6 (cli : CliArgs) (penv : ParseEnv) (benv : BuildEnv)
    (device_count : Nat) (args : CliArgs)
    (hparse : parse_arguments cli penv = Except.ok args)
    (hN : 0 < args.world_size)
    (hfmha : ¬(args.enable_context_fmha = true ∧ args.enable_context_fmha_fp32_acc = true))
    (hok : ∀ r, benv.engine_ok r = true)
    (hsave : benv.save_cache_ok = true) :
    (args.parallel_build = true ∧ 1 < args.world_size ∧ args.world_size ≤ device_count →
      ∃ workers, run_build cli penv benv device_count =
          Except.ok (RunPlan.parallelSpawn workers) ∧
        workers.length = args.world_size ∧
        (∀ r, r < args.world_size → workers[r]? = some (build r args benv)) ∧
        (∀ r, r < args.world_size → ∃ cfgs writes,
          build r args benv = Except.ok (cfgs, writes) ∧
          cfgs.map Prod.fst = [r] ∧
          engineWrites writes = [FileWrite.engineFile r (enginePath args r)]))
    ∧ (¬(args.parallel_build = true ∧ 1 < args.world_size ∧ args.world_size ≤ device_count) →
      run_build cli penv benv device_count =
        Except.ok (RunPlan.serialRun (build 0 { args with parallel_build := false } benv)) ∧
      ∃ cfgs writes,
        build 0 { args with parallel_build := false } benv = Except.ok (cfgs, writes) ∧
        cfgs.map Prod.fst = List.range args.world_size) := by
  constructor
  · intro hcond
    refine ⟨(List.range args.world_size).map (fun r => build r args benv), ?_, by simp, ?_, ?_⟩
    · simp only [run_build, hparse]
      rw [if_pos hcond]
    · intro r hr
      simp [List.getElem?_map, List.getElem?_range, hr]
    · intro r hr
      have hloop := buildLoop_parallel r args benv hcond.1 hfmha (hok r)
        (List.range args.world_size) none
      rw [filter_range_eq r args.world_size hr] at hloop
      by_cases hr0 : r = 0
      · subst hr0
        refine ⟨[(0, mkBuilderConfig args (TimingCacheSource.fromPath args.timing_cache))],
          [FileWrite.configFile (pathJoin args.output_dir "config.json"),
           FileWrite.engineFile 0 (enginePath args 0),
           FileWrite.cacheFile (pathJoin args.output_dir "model.cache")], ?_, by simp, ?_⟩
        · simp only [build, hloop]
          simp [hsave, rankSeg, cacheSrc]
        · simp [engineWrites]
      · refine ⟨[(r, mkBuilderConfig args (TimingCacheSource.fromPath args.timing_cache))],
          [FileWrite.engineFile r (enginePath args r)], ?_, by simp, ?_⟩
        · simp only [build, hloop]
          simp [hr0, rankSeg, cacheSrc]
        · simp [engineWrites]
  · intro hcond
    constructor
    · simp only [run_build, hparse]
      rw [if_neg hcond]
    · refine ⟨serialCfgs { args with parallel_build := false },
        serialWrites { args with parallel_build := false },
        (build_serial { args with parallel_build := false } benv rfl hfmha hok hN).1 hsave, ?_⟩
      unfold serialCfgs
      simp only [show ({ args with parallel_build := false } : CliArgs).world_size
        = args.world_size from rfl]
      obtain ⟨n, hn⟩ : ∃ n, args.world_size = n + 1 := ⟨args.world_size - 1, by omega⟩
      rw [hn, List.range_succ_eq_map]
      simp [List.map_map, Function.comp, Nat.succ_eq_add_one]

/-- CLI arguments requesting a parallel two-rank build. -/
def parallelCli : CliArgs :=
  { defaultCliArgs with parallel_build := true, world_size := 2 }

/-- Claim C6 witness: with 2 devices the parallel plan spawns 2 workers
each building its own rank; with only 1 device the build falls back to a
serial `build(0, args)` with `parallel_build` forced off. -/
theorem claim_C6_witness :
    (∃ workers, run_build parallelCli sampleEnv benvAllOk 2 =
        Except.ok (RunPlan.parallelSpawn workers) ∧
      workers.length = parallelCli.world_size ∧
      (∀ r, r < parallelCli.world_size →
        workers[r]? = some (build r parallelCli benvAllOk)) ∧
      (∀ r, r < parallelCli.world_size → ∃ cfgs writes,
        build r parallelCli benvAllOk = Except.ok (cfgs, writes) ∧
        cfgs.map Prod.fst = [r] ∧
        engineWrites writes = [FileWrite.engineFile r (enginePath parallelCli r)])) ∧
    run_build parallelCli sampleEnv benvAllOk 1 =
      Except.ok (RunPlan.serialRun
        (build 0 { parallelCli with parallel_build := false } benvAllOk)) :=
  ⟨(claim_C6 parallelCli sampleEnv benvAllOk 2 parallelCli (by rfl) (by decide)
      (by decide) (fun _ => rfl) rfl).1 (by decide),
   ((claim_C6 parallelCli sampleEnv benvAllOk 1 parallelCli (by rfl) (by decide)
      (by decide) (fun _ => rfl) rfl).2 (by decide)).1⟩

theorem buildLoop_cfg_passthrough (rank : Nat) (args : CliArgs) (env : BuildEnv) :
    ∀ (l : List Nat) (c : Option Nat) (cfgs : List (Nat × BuilderCfg)) (ws : List FileWrite),
      buildLoop rank args env l c = Except.ok (cfgs, ws) →
      ∀ pr ∈ cfgs, ∃ src, pr.2 = mkBuilderConfig args src := by
  intro l
  induction l with
  | nil =>
    intro c cfgs ws h pr hpr
    simp only [buildLoop, Except.ok.injEq, Prod.mk.injEq] at h
    rw [← h.1] at hpr
    simp at hpr
  | cons cur rest ih =>
    intro c cfgs ws h pr hpr
    simp only [buildLoop] at h
    split at h
    · exact ih c cfgs ws h pr hpr
    · split at h
      · exact absurd h (by simp)
      · split at h
        · exact absurd h (by simp)
        · split at h
          · exact absurd h (by simp)
          · next cfgs2 ws2 heq =>
              simp only [Except.ok.injEq, Prod.mk.injEq] at h
              obtain ⟨h1, _⟩ := h
              rw [← h1] at hpr
              rcases List.mem_cons.mp hpr with hp | hp
              · exact ⟨cacheSrc args c, by rw [hp]⟩
              · exact ih _ cfgs2 ws2 heq pr hp

theorem build_cfg_passthrough (rank : Nat) (args : CliArgs) (env : BuildEnv)
    (cfgs : List (Nat × BuilderCfg)) (ws : List FileWrite)
    (h : build rank args env = Except.ok (cfgs, ws)) :
    ∀ pr ∈ cfgs, ∃ src, pr.2 = mkBuilderConfig args src := by
  unfold build at h
  cases hrec : buildLoop rank args env (List.range args.world_size) none with
  | error e => rw [hrec] at h; exact absurd h (by simp)
  | ok p =>
    obtain ⟨cfgs2, ws2⟩ := p
    rw [hrec] at h
    dsimp only at h
    split at h
    · split at h
      · simp only [Except.ok.injEq, Prod.mk.injEq] at h
        obtain ⟨h1, _⟩ := h
        rw [← h1]
        exact buildLoop_cfg_passthrough rank args env _ none cfgs2 ws2 hrec
      · exact absurd h (by simp)
    · simp only [Except.ok.injEq, Prod.mk.injEq] at h
      obtain ⟨h1, _⟩ := h
      rw [← h1]
      exact buildLoop_cfg_passthrough rank args env _ none cfgs2 ws2 hrec

/-- Claim C2 (amended): the hyperparameters handed to every builder
configuration are those of the parsed argument record, and these equal
the CLI flag values exactly when `--model_dir` is not given; with
`--model_dir` they are instead overridden from the checkpoint
configuration (shown here for the non-AWQ path; the AWQ path additionally
pads the vocabulary, see claim C9). -/
theorem claim_C2 (cli : CliArgs) (penv : ParseEnv) (benv : BuildEnv)
    (args : CliArgs) (hok : parse_arguments cli penv = Except.ok args) :
    (∀ rank cfgs writes, build rank args benv = Except.ok (cfgs, writes) →
      ∀ pr ∈ cfgs, pr.2.num_layers = args.n_layer ∧ pr.2.num_heads = args.n_head ∧
        pr.2.hidden_size = args.n_embd ∧
        pr.2.max_position_embeddings = args.n_positions ∧
        pr.2.vocab_size = args.vocab_size)
    ∧ (cli.model_dir = none →
      args.n_layer = cli.n_layer ∧ args.n_head = cli.n_head ∧
      args.n_embd = cli.n_embd ∧ args.n_positions = cli.n_positions ∧
      args.vocab_size = cli.vocab_size)
    ∧ (∀ d, cli.model_dir = some d →
      ¬(cli.use_weight_only = true ∧ cli.weight_only_precision = WOPrec.int4 ∧
        cli.per_group = true) →
      args.n_layer = penv.hf_config.n_layer ∧ args.n_head = penv.hf_config.n_head ∧
      args.n_embd = penv.hf_config.n_embd ∧
      args.n_positions = penv.hf_config.n_positions ∧
      args.vocab_size = penv.hf_config.vocab_size) := by
  have ha := parse_arguments_ok cli penv args hok
  refine ⟨?_, ?_, ?_⟩
  · intro rank cfgs writes hb pr hpr
    obtain ⟨src, hsrc⟩ := build_cfg_passthrough rank args benv cfgs writes hb pr hpr
    rw [hsrc]
    exact ⟨rfl, rfl, rfl, rfl, rfl⟩
  · intro hnone
    rw [ha]
    unfold applyModelDir
    rw [hnone]
    exact ⟨rfl, rfl, rfl, rfl, rfl⟩
  · intro d hsome hnotawq
    rw [ha]
    unfold applyModelDir
    rw [hsome]
    dsimp only
    rw [if_neg hnotawq]
    exact ⟨rfl, rfl, rfl, rfl, rfl⟩

/-- CLI arguments that only add `--model_dir` to the defaults. -/
def modelDirCli : CliArgs := { defaultCliArgs with model_dir := some "m" }

/-- A checkpoint whose configuration disagrees with the CLI defaults
(2 layers instead of 28, vocabulary 50400 instead of 50401). -/
def hfOverrideEnv : ParseEnv where
  awq_config := { n_embd := 4096, n_head := 16, n_layer := 2, n_positions := 2048, vocab_size := 50400 }
  hf_config := { n_embd := 4096, n_head := 16, n_layer := 2, n_positions := 2048, vocab_size := 50400 }

/-- The argument record `parse_arguments` produces for `modelDirCli` at
`hfOverrideEnv`: the hyperparameters come from the checkpoint. -/
def hfParsedArgs : CliArgs :=
  { modelDirCli with
    n_embd := 4096,
    n_head := 16,
    n_layer := 2,
    n_positions := 2048,
    vocab_size := 50400 }

/-- Claim C2 counterexample: with `--model_dir` given, the builder
configuration receives the checkpoint's `n_layer = 2`, not the CLI value
28, so the CLI hyperparameters are not pass-through in this case. -/
theorem claim_C2_counterexample :
    modelDirCli.n_layer = 28 ∧
    parse_arguments modelDirCli hfOverrideEnv = Except.ok hfParsedArgs ∧
    build 0 hfParsedArgs benvAllOk =
      Except.ok ([(0, mkBuilderConfig hfParsedArgs (TimingCacheSource.fromPath "model.cache"))],
        [FileWrite.configFile (pathJoin "gpt_outputs" "config.json"),
         FileWrite.engineFile 0 (enginePath hfParsedArgs 0),
         FileWrite.cacheFile (pathJoin "gpt_outputs" "model.cache")]) ∧
    (mkBuilderConfig hfParsedArgs (TimingCacheSource.fromPath "model.cache")).num_layers = 2 ∧
    (2 : Nat) ≠ 28 :=
  ⟨rfl, by rfl, by rfl, rfl, by decide⟩

/-- Claim C2 witness: at `hfOverrideEnv` the parsed hyperparameters equal
the checkpoint configuration's values. -/
theorem claim_C2_witness :
    hfParsedArgs.n_layer = hfOverrideEnv.hf_config.n_layer ∧
    hfParsedArgs.vocab_size = hfOverrideEnv.hf_config.vocab_size := by
  have h := (claim_C2 modelDirCli hfOverrideEnv benvAllOk hfParsedArgs (by rfl)).2.2
    "m" rfl (by decide)
  exact ⟨h.1, h.2.2.2.2⟩

/-- The scaling-factor dictionary returned by `get_scaling_factors` and
`convert_amax_to_scale` (build.py lines 261-423).  Python floats are
modelled as rationals; no claim depends on rounding. -/
structure ScalingFactors where
  qkv_act : List Rat
  qkv_weights : List Rat
  qkv_output : List Rat
  dense_act : List Rat
  dense_weights : List Rat
  fc_act : List Rat
  fc_weights : List Rat
  proj_act : List Rat
  proj_weights : List Rat
deriving DecidableEq, Repr

/-- The replacement factors returned when the model path does not exist
(build.py lines 293-305): 0.99 everywhere except `qkv_output = 5.0`. -/
def defaultScalingFactors (n_layers : Nat) : ScalingFactors where
  qkv_act := List.replicate n_layers (99 / 100)
  qkv_weights := List.replicate n_layers (99 / 100)
  qkv_output := List.replicate n_layers 5
  dense_act := List.replicate n_layers (99 / 100)
  dense_weights := List.replicate n_layers (99 / 100)
  fc_act := List.replicate n_layers (99 / 100)
  fc_weights := List.replicate n_layers (99 / 100)
  proj_act := List.replicate n_layers (99 / 100)
  proj_weights := List.replicate n_layers (99 / 100)

/-- `convert_amax_to_scale` (build.py lines 380-423): every amax list is
divided elementwise by the constant 448. -/
def convert_amax_to_scale (qkv_act qkv_weights qkv_out dense_act dense_weights
    fc_act fc_weights proj_act proj_weights : List Rat) : ScalingFactors where
  qkv_act := qkv_act.map (fun x => x / 448)
  qkv_weights := qkv_weights.map (fun x => x / 448)
  qkv_output := qkv_out.map (fun x => x / 448)
  dense_act := dense_act.map (fun x => x / 448)
  dense_weights := dense_weights.map (fun x => x / 448)
  fc_act := fc_act.map (fun x => x / 448)
  fc_weights := fc_weights.map (fun x => x / 448)
  proj_act := proj_act.map (fun x => x / 448)
  proj_weights := proj_weights.map (fun x => x / 448)

/-- The layer-validity assertion loop of `get_scaling_factors`
(build.py lines 309-312): `assert 0 >= layer and layer < n_layers` for
each requested layer, with `n_layers` rebound to 28 just before. -/
def checkLayers : List Int → Except String Unit
  | [] => Except.ok ()
  | layer :: rest =>
    if 0 ≥ layer ∧ layer < 28 then
      checkLayers rest
    else
      Except.error ("Layer " ++ toString layer ++
        " does not exist in GPTJ model. Please enter a number between 0 and 27")

/-- `max(q, k, v)` over the three attention projections' amax entries for
one of the quantizer fields; the loaded `torch` state dictionary is the
total function `model`. -/
def qkvMax (model : String → Rat) (layer : Int) (field : String) : Rat :=
  max (model ("transformer.h." ++ toString layer ++ ".attn.q_proj." ++ field ++ "._amax"))
    (max (model ("transformer.h." ++ toString layer ++ ".attn.k_proj." ++ field ++ "._amax"))
      (model ("transformer.h." ++ toString layer ++ ".attn.v_proj." ++ field ++ "._amax")))

/-- The list-building loop of `get_scaling_factors`
(build.py lines 353-377), followed by `convert_amax_to_scale`. -/
def collectFactors (model : String → Rat) (ls : List Int) : ScalingFactors :=
  convert_amax_to_scale
    (ls.map (fun layer => qkvMax model layer "input_quantizer"))
    (ls.map (fun layer => qkvMax model layer "weight_quantizer"))
    (ls.map (fun layer => qkvMax model layer "output_quantizer"))
    (ls.map (fun layer =>
      model ("transformer.h." ++ toString layer ++ ".attn.out_proj.input_quantizer._amax")))
    (ls.map (fun layer =>
      model ("transformer.h." ++ toString layer ++ ".attn.out_proj.weight_quantizer._amax")))
    (ls.map (fun layer =>
      model ("transformer.h." ++ toString layer ++ ".mlp.fc_in.input_quantizer._amax")))
    (ls.map (fun layer =>
      model ("transformer.h." ++ toString layer ++ ".mlp.fc_in.weight_quantizer._amax")))
    (ls.map (fun layer =>
      model ("transformer.h." ++ toString layer ++ ".mlp.fc_out.input_quantizer._amax")))
    (ls.map (fun layer =>
      model ("transformer.h." ++ toString layer ++ ".mlp.fc_out.weight_quantizer._amax")))

/-- `get_scaling_factors` (build.py lines 261-377).  `os.path.exists` is
the boolean `path_exists`; `torch.load` is the total dictionary `model`.
When the path is missing the commented-out `raise` is skipped and the
default factors are returned after a warning; otherwise the layer
assertions run (against the rebound constant 28) and the amax values are
collected and converted. -/
def get_scaling_factors (path_exists : Bool) (model : String → Rat)
    (layers : Option (List Int)) (n_layers : Nat) : Except String ScalingFactors :=
  if path_exists = false then
    Except.ok (defaultScalingFactors n_layers)
  else
    match layers with
    | some ls =>
      match checkLayers ls with
      | Except.error e => Except.error e
      | Except.ok _ => Except.ok (collectFactors model ls)
    | none => Except.ok (collectFactors model ((List.range 28).map (fun n => (n : Int))))

/-- Claim C3 counterexample: with `--enable_fp8` and a missing
`--quantized_fp8_model_path`, `get_scaling_factors` does not raise — it
returns the default scaling factors, so the build proceeds with
defaults (the `raise` in the source is commented out). -/
theorem claim_C3_counterexample :
    get_scaling_factors false (fun _ => 0) none 28 =
      Except.ok (defaultScalingFactors 28) ∧
    isAssertError (get_scaling_factors false (fun _ => 0) none 28) = false :=
  ⟨rfl, rfl⟩

/-- Claim C3 (amended): whenever the quantized-fp8 model path does not
exist, `get_scaling_factors` returns the default scaling-factor
dictionary (0.99 everywhere, 5.0 for `qkv_output`) instead of raising,
for every model dictionary, layer selection and layer count. -/
theorem claim_C3 (model : String → Rat) (layers : Option (List Int)) (n_layers : Nat) :
    get_scaling_factors false model layers n_layers =
      Except.ok (defaultScalingFactors n_layers) ∧
    (defaultScalingFactors n_layers).fc_act = List.replicate n_layers (99 / 100) ∧
    (defaultScalingFactors n_layers).qkv_output = List.replicate n_layers 5 :=
  ⟨rfl, rfl, rfl⟩

theorem checkLayers_error (ls : List Int) (hx : ∃ x ∈ ls, 1 ≤ x) :
    ∃ e, checkLayers ls = Except.error e := by
  induction ls with
  | nil =>
    obtain ⟨x, hm, _⟩ := hx
    simp at hm
  | cons a rest ih =>
    obtain ⟨x, hm, h1⟩ := hx
    unfold checkLayers
    by_cases ha : ((0 : Int) ≥ a ∧ a < 28)
    · rw [if_pos ha]
      apply ih
      rcases List.mem_cons.mp hm with h | h
      · subst h
        exact absurd ha.1 (by omega)
      · exact ⟨x, h, h1⟩
    · rw [if_neg ha]
      exact ⟨_, rfl⟩

/-- Claim C8: for every existing model path and every explicit layer list
containing a layer index `≥ 1`, `get_scaling_factors` raises an
`AssertionError`: its check `0 >= layer and layer < n_layers` accepts
only indices `≤ 0`, although the message asks for a number between 0 and
27. -/
theorem claim_C8 (model : String → Rat) (ls : List Int) (n_layers : Nat)
    (hx : ∃ x ∈ ls, 1 ≤ x) :
    isAssertError (get_scaling_factors true model (some ls) n_layers) = true ∧
    (∀ x : Int, checkLayers [x] = Except.ok () ↔ x ≤ 0) := by
  constructor
  · obtain ⟨e, he⟩ := checkLayers_error ls hx
    unfold get_scaling_factors
    rw [if_neg (by simp)]
    dsimp only
    rw [he]
    rfl
  · intro x
    constructor
    · intro h
      by_cases hc : ((0 : Int) ≥ x ∧ x < 28)
      · omega
      · unfold checkLayers at h
        rw [if_neg hc] at h
        exact absurd h (by simp)
    · intro h
      unfold checkLayers
      rw [if_pos (by omega)]
      rfl

/-- Claim C8 witness: requesting scaling factors for layer 1 of an
existing checkpoint trips the assertion. -/
theorem claim_C8_witness :
    isAssertError (get_scaling_factors true (fun _ => 0) (some [1]) 28) = true ∧
    (checkLayers [(1 : Int)] = Except.ok () ↔ (1 : Int) ≤ 0) :=
  ⟨(claim_C8 (fun _ => 0) [1] 28 ⟨1, by decide, by decide⟩).1,
   (claim_C8 (fun _ => 0) [1] 28 ⟨1, by decide, by decide⟩).2 1⟩

end GptjBuild

namespace Bloom

/-!
Shallow embedding of `tensorrt_llm/models/bloom/model.py`.  The graph
tensors are an abstract type `T`; the layer primitives imported from the
external `tensorrt_llm.layers` package (`Embedding`, `LayerNorm`,
`Attention`, `MLP`, tensor addition, `gather_last_token_logits`,
`ColumnLinear`) are fields of `BloomOps`, with the convention of the
external `Attention` that it returns `(context, present)` when
`use_cache` is set: `attention` is its context output and
`attention_present` its present key-value output.  The layer index is
passed so distinct `BloomDecoderLayer` instances keep distinct weights.
-/

/-- The external layer primitives used by the BLOOM model graph. -/
structure BloomOps (T : Type) where
  embedding : T → T
  ln_embed : T → T
  input_layernorm : Nat → T → T
  attention : Nat → T → Option T → T
  attention_present : Nat → T → Option T → T
  post_layernorm : Nat → T → T
  mlp : Nat → T → T
  add : T → T → T
  ln_f : T → T
  gather_last : T → T
  lm_head : T → T

/-- A Python value that is either a `(hidden_states, presents)` pair or a
bare hidden-states tensor. -/
inductive LayerOut (T : Type) where
  | pair (h : T) (present : T)
  | single (h : T)
deriving DecidableEq, Repr

/-- `BloomDecoderLayer.forward` (model.py lines 87-135): pre-layernorm,
attention, residual add, post-layernorm, MLP, residual add; returns
`(hidden_states, presents)` when `use_cache` and the hidden states
alone otherwise. -/
def bloomDecoderLayerForward {T : Type} (ops : BloomOps T) (i : Nat) (hidden : T)
    (past : Option T) (use_cache : Bool) : LayerOut T :=
  let h1 := ops.input_layernorm i hidden
  let attn_out := ops.attention i h1 past
  let h2 := ops.add hidden attn_out
  let h3 := ops.add h2 (ops.mlp i (ops.post_layernorm i h2))
  if use_cache then LayerOut.pair h3 (ops.attention_present i h1 past)
  else LayerOut.single h3

/-- The `for layer, past in zip(self.layers, past_key_value)` loop of
`BloomModel.forward` (model.py lines 212-228), carrying the running
hidden states and the accumulated `presents` list. -/
def bloomLayersFold {T : Type} (ops : BloomOps T) (use_cache : Bool) :
    List (Nat × Option T) → T × List T → T × List T
  | [], acc => acc
  | ip :: rest, acc =>
    match bloomDecoderLayerForward ops ip.1 acc.1 ip.2 use_cache with
    | LayerOut.pair h p => bloomLayersFold ops use_cache rest (h, acc.2 ++ [p])
    | LayerOut.single h => bloomLayersFold ops use_cache rest (h, acc.2)

/-- `past_key_value = tuple([None] * len(self.layers))` when the caller
passes `None` (model.py lines 206-207). -/
def bloomPast {T : Type} (num_layers : Nat) :
    Option (List (Option T)) → List (Option T)
  | none => List.replicate num_layers none
  | some p => p

/-- The embedding, embedding layernorm and decoder-layer loop of
`BloomModel.forward`, before the final `ln_f`. -/
def bloomModelCore {T : Type} (ops : BloomOps T) (num_layers : Nat) (input_ids : T)
    (past_key_value : Option (List (Option T))) (use_cache : Bool) : T × List T :=
  bloomLayersFold ops use_cache
    ((List.range num_layers).zip (bloomPast num_layers past_key_value))
    (ops.ln_embed (ops.embedding input_ids), [])

/-- The result of `BloomModel.forward`: a `(hidden_states, presents)`
pair with `use_cache`, the hidden-states tensor alone without. -/
inductive ModelOut (T : Type) where
  | withCache (h : T) (presents : List T)
  | plain (h : T)
deriving DecidableEq, Repr

/-- `BloomModel.forward` (model.py lines 187-234). -/
def bloomModelForward {T : Type} (ops : BloomOps T) (num_layers : Nat) (input_ids : T)
    (past_key_value : Option (List (Option T))) (use_cache : Bool) : ModelOut T :=
  if use_cache then
    ModelOut.withCache
      (ops.ln_f (bloomModelCore ops num_layers input_ids past_key_value use_cache).1)
      (bloomModelCore ops num_layers input_ids past_key_value use_cache).2
  else
    ModelOut.plain
      (ops.ln_f (bloomModelCore ops num_layers input_ids past_key_value use_cache).1)

/-- The result of `BloomForCausalLM.forward`: logits plus presents with
`use_cache`, logits alone without. -/
inductive LMOut (T : Type) where
  | withCache (logits : T) (presents : List T)
  | plain (logits : T)
deriving DecidableEq, Repr

/-- `BloomForCausalLM.forward` (model.py lines 284-321), returning the
result value together with the list of `mark_output` calls (name, tensor)
in order: `logits` first, then `present_key_value_{i}` for each present
when `use_cache` is set. -/
def bloomForCausalLMForward {T : Type} (ops : BloomOps T) (num_layers : Nat)
    (input_ids : T) (past_key_value : Option (List (Option T))) (use_cache : Bool) :
    LMOut T × List (String × T) :=
  match bloomModelForward ops num_layers input_ids past_key_value use_cache with
  | ModelOut.withCache h presents =>
    (LMOut.withCache (ops.lm_head (ops.gather_last h)) presents,
      ("logits", ops.lm_head (ops.gather_last h)) ::
        presents.enum.map (fun pr => ("present_key_value_" ++ toString pr.1, pr.2)))
  | ModelOut.plain h =>
    (LMOut.plain (ops.lm_head (ops.gather_last h)),
      [("logits", ops.lm_head (ops.gather_last h))])

theorem bloomLayersFold_len {T : Type} (ops : BloomOps T) :
    ∀ (pairs : List (Nat × Option T)) (h0 : T) (acc : List T),
      ((bloomLayersFold ops true pairs (h0, acc)).2).length = acc.length + pairs.length := by
  intro pairs
  induction pairs with
  | nil => intro h0 acc; rfl
  | cons ip rest ih =>
    intro h0 acc
    simp only [bloomLayersFold, bloomDecoderLayerForward, if_pos]
    rw [ih]
    simp only [List.length_append, List.length_cons, List.length_nil]
    omega

theorem bloomLayersFold_nocache {T : Type} (ops : BloomOps T) :
    ∀ (pairs : List (Nat × Option T)) (h0 : T) (acc : List T),
      (bloomLayersFold ops false pairs (h0, acc)).2 = acc := by
  intro pairs
  induction pairs with
  | nil => intro h0 acc; rfl
  | cons ip rest ih =>
    intro h0 acc
    simp only [bloomLayersFold, bloomDecoderLayerForward]
    rw [if_neg (by simp)]
    exact ih _ _

/-- Claim C10 (amended): provided `past_key_value` is `None` or has one
entry per decoder layer, `BloomModel.forward` with `use_cache=True`
returns a pair whose second component holds exactly one present per
layer, and `BloomForCausalLM.forward` marks each of them as an output
`present_key_value_{i}`; with `use_cache=False` the result is the
hidden-states tensor alone.  (When a caller passes a shorter
`past_key_value`, `zip` truncates the layer loop, see the
counterexample.) -/
theorem claim_C10 {T : Type} (ops : BloomOps T) (num_layers : Nat) (input_ids : T)
    (past : Option (List (Option T)))
    (hp : past = none ∨ ∃ l, past = some l ∧ l.length = num_layers) :
    (∃ h presents,
      bloomModelForward ops num_layers input_ids past true = ModelOut.withCache h presents ∧
      presents.length = num_layers ∧
      (bloomForCausalLMForward ops num_layers input_ids past true).2 =
        ("logits", ops.lm_head (ops.gather_last h)) ::
          presents.enum.map (fun pr => ("present_key_value_" ++ toString pr.1, pr.2)) ∧
      (∀ pr ∈ presents.enum,
        ("present_key_value_" ++ toString pr.1, pr.2) ∈
          (bloomForCausalLMForward ops num_layers input_ids past true).2))
    ∧ (∀ pastAny : Option (List (Option T)), ∃ h,
      bloomModelForward ops num_layers input_ids pastAny false = ModelOut.plain h ∧
      (bloomForCausalLMForward ops num_layers input_ids pastAny false).1 =
        LMOut.plain (ops.lm_head (ops.gather_last h))) := by
  have hlen : (bloomPast num_layers past : List (Option T)).length = num_layers := by
    rcases hp with h | ⟨l, hl, hll⟩
    · subst h; simp [bloomPast]
    · subst hl; simp [bloomPast, hll]
  constructor
  · refine ⟨ops.ln_f (bloomModelCore ops num_layers input_ids past true).1,
      (bloomModelCore ops num_layers input_ids past true).2, ?_, ?_, ?_, ?_⟩
    · unfold bloomModelForward
      rw [if_pos rfl]
    · unfold bloomModelCore
      rw [bloomLayersFold_len]
      simp [List.length_zip, hlen]
    · unfold bloomForCausalLMForward bloomModelForward
      rw [if_pos rfl]
    · intro pr hpr
      unfold bloomForCausalLMForward bloomModelForward
      rw [if_pos rfl]
      exact List.mem_cons_of_mem _ (List.mem_map.mpr ⟨pr, hpr, rfl⟩)
  · intro pastAny
    refine ⟨ops.ln_f (bloomModelCore ops num_layers input_ids pastAny false).1, ?_, ?_⟩
    · unfold bloomModelForward
      rw [if_neg (by simp)]
    · unfold bloomForCausalLMForward bloomModelForward
      rw [if_neg (by simp)]

/-- Trivial tensor semantics over `Nat` used for concrete evaluation. -/
def natOps : BloomOps Nat where
  embedding := id
  ln_embed := id
  input_layernorm := fun _ x => x
  attention := fun _ x _ => x
  attention_present := fun _ x _ => x
  post_layernorm := fun _ x => x
  mlp := fun _ x => x
  add := fun a b => a + b
  ln_f := id
  gather_last := id
  lm_head := id

/-- Claim C10 counterexample: calling `BloomModel.forward` on a 2-layer
model with `use_cache=True` and a 1-entry `past_key_value` returns only
one present (`zip` truncates the loop), so the presents tuple does not
always have one entry per layer. -/
theorem claim_C10_counterexample :
    bloomModelForward natOps 2 0 (some [some 0]) true = ModelOut.withCache 0 [0] ∧
    ([0] : List Nat).length = 1 ∧
    (1 : Nat) ≠ 2 :=
  ⟨rfl, rfl, by decide⟩

/-- Claim C10 witness: a 2-layer model called with `past_key_value = None`. -/
theorem claim_C10_witness :
    (∃ h presents,
      bloomModelForward natOps 2 0 none true = ModelOut.withCache h presents ∧
      presents.length = 2 ∧
      (bloomForCausalLMForward natOps 2 0 none true).2 =
        ("logits", natOps.lm_head (natOps.gather_last h)) ::
          presents.enum.map (fun pr => ("present_key_value_" ++ toString pr.1, pr.2)) ∧
      (∀ pr ∈ presents.enum,
        ("present_key_value_" ++ toString pr.1, pr.2) ∈
          (bloomForCausalLMForward natOps 2 0 none true).2))
    ∧ (∀ pastAny : Option (List (Option Nat)), ∃ h,
      bloomModelForward natOps 2 0 pastAny false = ModelOut.plain h ∧
      (bloomForCausalLMForward natOps 2 0 pastAny false).1 =
        LMOut.plain (natOps.lm_head (natOps.gather_last h))) :=
  claim_C10 natOps 2 0 none (Or.inl rfl)

end Bloom
